import Mathlib

/-!
Shallow embedding of the session lifecycle / presence-reconciliation core of
the study-together client (hook `useFirebaseSession`, helpers
`saveCompletedSession`, `archiveSession`, and the `Lobby` submit handler).

Modelling conventions:
* Firestore `Timestamp` values are modelled as milliseconds (`Millis := Nat`);
  `toMillis` is the identity.  `serverTimestamp()` is passed in as an explicit
  argument where the code uses it for a field other than `lastSeen`.
* The remote store is not modelled as a heap; instead every operation returns,
  next to the updated local state, the ordered list of remote writes that
  completed successfully (an `Effect` list).  A failed remote call produces no
  effect; failure is injected through explicit `Bool`/`Option` outcome
  arguments at each `await` that can throw.
* React `useState` cells and the two `localStorage` keys are gathered into one
  record `LocalState` (`storage` is the `study-app-user-id` key; the durable
  per-browser uuid produced by `getUserId` is passed as a plain argument).
-/

namespace StudyTogether

/-- Milliseconds since epoch, the payload of a Firestore `Timestamp`. -/
abbrev Millis := Nat

/-- `status: 'active' | 'idle'` of a session record. -/
inductive Status where
  | active
  | idle
deriving DecidableEq, Repr

/-- The `Session` interface from `types.ts`. -/
structure Session where
  id : String
  name : String
  status : Status
  sessionStartTime : Option Millis
  lastSeen : Millis
deriving DecidableEq, Repr

/-- A record of the append-only `completed_sessions` collection, as written by
`saveCompletedSession` (the server-assigned `completedAt` field is resolved by
the store at write time and carries no client-visible information, so it is
not modelled). -/
structure CompletedSession where
  userId : String
  userName : String
  sessionDuration : Int
  startTime : Millis
  endTime : Millis
deriving DecidableEq, Repr

/-- A record of the append-only `session_history` collection, as built by
`archiveSession` (again without the server-assigned `leftAt`). -/
structure SessionHistory where
  originalSessionId : String
  name : String
  sessionStartTime : Option Millis
  sessionEndTime : Millis
  sessionDuration : Int
  completedSession : Bool
deriving DecidableEq, Repr

/-- A successful remote write, in the order the client awaited it.
`addSession` is `addDoc(sessionsRef, …)`, `updateSession` is an
`updateDoc` that sets `status`, `sessionStartTime` and `lastSeen` together,
`heartbeat` is an `updateDoc` touching only `lastSeen`, and the remaining
constructors are the writes of the two helper collections and
`deleteDoc(sessions, id)`. -/
inductive Effect where
  | addSession (name : String) (status : Status) (sessionStartTime : Option Millis)
  | updateSession (id : String) (status : Status) (sessionStartTime : Option Millis)
  | heartbeat (id : String)
  | addCompleted (rec : CompletedSession)
  | addHistory (rec : SessionHistory)
  | deleteSession (id : String)
deriving DecidableEq, Repr

/-- The hook's `useState` cells plus the durable `study-app-user-id`
`localStorage` key. -/
structure LocalState where
  currentUser : Option Session
  allUsers : List Session
  isLoading : Bool
  error : Option String
  showFeedbackModal : Bool
  sessionDuration : Int
  isJoining : Bool
  isLeaving : Bool
  storage : Option String
deriving DecidableEq, Repr

/-- Fresh-tab state: all cells at their `useState` initial values and no
stored identity. -/
def initialState : LocalState :=
  { currentUser := none
    allUsers := []
    isLoading := true
    error := none
    showFeedbackModal := false
    sessionDuration := 0
    isJoining := false
    isLeaving := false
    storage := none }

/-- The whitespace characters relevant to JS `String.prototype.trim` on the
names this client handles. -/
def isSpaceChar (c : Char) : Bool :=
  c == ' ' || c == '\t' || c == '\n' || c == '\r'

/-- JS `name.trim()`: strip whitespace from both ends. -/
def jsTrim (s : String) : String :=
  ⟨((s.data.dropWhile isSpaceChar).reverse.dropWhile isSpaceChar).reverse⟩

def joinErrMsg : String := "Failed to join room"
def startErrMsg : String := "Failed to start session"
def endErrMsg : String := "Failed to end session"
def leaveErrMsg : String := "Failed to leave room"

/-- `Math.floor((endMillis - startMillis) / 1000)`: floor division of the
millisecond difference, matching JS `Math.floor` semantics on negatives. -/
def durationSeconds (startT endT : Millis) : Int :=
  Int.fdiv ((endT : Int) - (startT : Int)) 1000

/-- `saveCompletedSession` from `utils/completedSessions.ts`, reduced to the
record it appends: durations below 5 seconds are silently discarded
(`if (sessionDuration < 5) return`), otherwise the completed-session record
is built.  `userId` is the durable per-browser uuid returned by `getUserId`. -/
def saveCompletedSession (userId : String) (u : Session)
    (startT endT : Millis) : Option CompletedSession :=
  let d := durationSeconds startT endT
  if d < 5 then none
  else some { userId := userId, userName := u.name, sessionDuration := d,
              startTime := startT, endTime := endT }

/-- `joinRoom(name)` from the hook.  `outcome` is the result of
`addDoc(sessionsRef, newSession)`: `some docId` on success, `none` when the
write throws.  `now` is `Timestamp.now()` taken at the start of the call.
On success the record `{status: 'idle', sessionStartTime: null}` is created,
the id is stored durably, `currentUser` is set optimistically, and the initial
heartbeat is sent; on failure only `error`/`isLoading`/`isJoining` change. -/
def joinRoom (s : LocalState) (name : String) (outcome : Option String)
    (now : Millis) : LocalState × List Effect :=
  match outcome with
  | some docId =>
      let trimmed := jsTrim name
      let newUser : Session :=
        { id := docId, name := trimmed, status := Status.idle,
          sessionStartTime := none, lastSeen := now }
      ({ s with isJoining := false, isLoading := false, error := none,
                storage := some docId, currentUser := some newUser },
       [Effect.addSession trimmed Status.idle none, Effect.heartbeat docId])
  | none =>
      ({ s with isJoining := false, isLoading := false,
                error := some joinErrMsg }, [])

/-- `startSession()` from the hook: guarded only by `if (!currentUser)
return`; on success one combined `updateDoc` sets `status: 'active'`,
`sessionStartTime: serverTimestamp()` and `lastSeen`.  `serverNow` is the
store-resolved value of that server timestamp; `writeOk` tells whether the
`updateDoc` succeeded. -/
def startSession (s : LocalState) (serverNow : Millis) (writeOk : Bool) :
    LocalState × List Effect :=
  match s.currentUser with
  | none => (s, [])
  | some u =>
      if writeOk then
        (s, [Effect.updateSession u.id Status.active (some serverNow)])
      else
        ({ s with error := some startErrMsg }, [])

/-- `endSession()` from the hook: guarded by
`if (!currentUser || !currentUser.sessionStartTime) return`.  It computes the
duration, stores it in the `sessionDuration` cell, invokes
`saveCompletedSession` (whose internal failure is swallowed there and never
aborts the flow), then resets the record to `{status: 'idle',
sessionStartTime: null}` with one `updateDoc` (`writeOk` is its outcome), and
finally shows the feedback modal when the duration reached 30 seconds. -/
def endSession (s : LocalState) (userId : String) (now : Millis)
    (writeOk : Bool) : LocalState × List Effect :=
  match s.currentUser with
  | none => (s, [])
  | some u =>
    match u.sessionStartTime with
    | none => (s, [])
    | some startT =>
        let duration := durationSeconds startT now
        let s1 := { s with sessionDuration := duration }
        let completedEff :=
          match saveCompletedSession userId u startT now with
          | some rec => [Effect.addCompleted rec]
          | none => []
        if writeOk then
          ({ s1 with showFeedbackModal :=
               if duration ≥ 30 then true else s1.showFeedbackModal },
           completedEff ++ [Effect.updateSession u.id Status.idle none])
        else
          ({ s1 with error := some endErrMsg }, completedEff)

/-- The `session_history` record built by `archiveSession` for a session
leaving the room at time `now` (`Date.now()`): duration and the
`completedSession` flag come from whether `sessionStartTime` was set. -/
def historyRecord (u : Session) (now : Millis) : SessionHistory :=
  { originalSessionId := u.id
    name := u.name
    sessionStartTime := u.sessionStartTime
    sessionEndTime := now
    sessionDuration :=
      match u.sessionStartTime with
      | some startT => durationSeconds startT now
      | none => 0
    completedSession := u.sessionStartTime.isSome }

/-- `archiveSession` from `utils/sessionArchive.ts`: first
`addDoc(session_history, …)` (outcome `historyOk`), then
`deleteDoc(sessions, id)` (outcome `deleteOk`); any failure is re-thrown.
The `Bool` result is `true` when the call returned normally and `false` when
it threw; the effect list holds the writes that completed. -/
def archiveSession (u : Session) (now : Millis) (historyOk deleteOk : Bool) :
    Bool × List Effect :=
  if historyOk then
    if deleteOk then
      (true, [Effect.addHistory (historyRecord u now), Effect.deleteSession u.id])
    else
      (false, [Effect.addHistory (historyRecord u now)])
  else
    (false, [])

/-- `leaveRoom()` from the hook: guarded by `if (!currentUser) return`; sets
the leaving flag, optimistically clears `currentUser` and the stored id, then
awaits `archiveSession`; on a thrown error it sets the leave error.  In every
path the leaving flag ends up cleared. -/
def leaveRoom (s : LocalState) (now : Millis) (historyOk deleteOk : Bool) :
    LocalState × List Effect :=
  match s.currentUser with
  | none => (s, [])
  | some u =>
      let s1 := { s with isLeaving := true, currentUser := none, storage := none }
      let res := archiveSession u now historyOk deleteOk
      if res.1 then
        ({ s1 with isLeaving := false }, res.2)
      else
        ({ s1 with isLeaving := false, error := some leaveErrMsg }, res.2)

/-- The JS quirk `sessionStartTime?.toMillis() || null` used in the snapshot
handler: a timestamp of exactly 0 milliseconds is falsy and collapses to
`null`. -/
def toMillisOrNull (o : Option Millis) : Option Millis :=
  match o with
  | some t => if t = 0 then none else some t
  | none => none

/-- The `setCurrentUser(prevUser => …)` updater inside the snapshot handler:
replace the previous value only when `id`, `status` or `name` differ, or when
the session start instants differ; otherwise keep `prevUser` to avoid a
redundant re-render. -/
def snapshotCurrentUser (prev : Option Session) (savedUser : Session) :
    Option Session :=
  match prev with
  | none => some savedUser
  | some p =>
      if p.id != savedUser.id || p.status != savedUser.status ||
          p.name != savedUser.name then
        some savedUser
      else if toMillisOrNull p.sessionStartTime !=
          toMillisOrNull savedUser.sessionStartTime then
        some savedUser
      else
        some p

/-- The `onSnapshot` success callback of the hook: always replaces `allUsers`
with the delivered list, clears `isLoading` and `error`; then, only when
neither a join nor a leave is in flight, reconciles `currentUser` against the
durably stored id — adopting the delivered record when found, or treating the
absence of the stored id as an implicit leave (clear storage and
`currentUser`). -/
def handleSnapshot (s : LocalState) (sessions : List Session) : LocalState :=
  let s1 := { s with allUsers := sessions, isLoading := false, error := none }
  if s.isJoining || s.isLeaving then s1
  else
    match s.storage with
    | none => s1
    | some savedId =>
        match sessions.find? (fun u => u.id == savedId) with
        | some savedUser =>
            { s1 with currentUser := snapshotCurrentUser s1.currentUser savedUser }
        | none =>
            { s1 with storage := none, currentUser := none }

/-- `handleSubmit` of `Lobby.tsx`: `if (!name.trim()) return` rejects an
empty or whitespace-only name before `onJoin(name.trim())` is ever called;
otherwise the join runs on the trimmed name.  (The submit button is likewise
disabled while `!name.trim()`.) -/
def handleSubmit (s : LocalState) (name : String) (outcome : Option String)
    (now : Millis) : LocalState × List Effect :=
  if jsTrim name = "" then (s, [])
  else joinRoom s (jsTrim name) outcome now

/-!  Heartbeat scheduler (the visibility-aware `useEffect`).  The scheduler
is a small event machine: `hidden` mirrors `document.hidden` and
`intervalActive` whether a `setInterval` is currently registered.  A `tick`
is the interval callback firing (possible only while the interval is
registered, and writing only when the tab is visible, per the
`if (!document.hidden)` guard); `hide`/`show` are the `visibilitychange`
handler: on hide the interval is cleared, on show one immediate heartbeat is
sent and the interval restarted. -/

/-- Scheduler state of the heartbeat `useEffect`. -/
structure HBState where
  hidden : Bool
  intervalActive : Bool
deriving DecidableEq, Repr

/-- Events the heartbeat scheduler reacts to. -/
inductive HBEvent where
  | tick
  | hide
  | show
deriving DecidableEq, Repr

/-- One scheduler step; the `Nat` is the number of heartbeat writes the step
performs (0 or 1). -/
def hbStep (s : HBState) (e : HBEvent) : HBState × Nat :=
  match e with
  | HBEvent.tick =>
      (s, if s.intervalActive && !s.hidden then 1 else 0)
  | HBEvent.hide =>
      ({ hidden := true, intervalActive := false }, 0)
  | HBEvent.show =>
      ({ hidden := false, intervalActive := true }, 1)

/-- Run the scheduler over a list of events, accumulating the total number of
heartbeat writes. -/
def hbRun (s : HBState) : List HBEvent → HBState × Nat
  | [] => (s, 0)
  | e :: es =>
      let r := hbStep s e
      let rest := hbRun r.1 es
      (rest.1, r.2 + rest.2)

/-!  Concrete fixtures used to instantiate the theorems below. -/

def aliceName : String := "Alice"
def wsName : String := "   "
def idA : String := "doc-a1"
def uuidA : String := "uuid-1"

/-- A participant with a running study session started at 5000 ms. -/
def bobUser : Session :=
  { id := "doc-b2", name := "Bob", status := Status.active,
    sessionStartTime := some 5000, lastSeen := 5000 }

/-- A participant present in the room but not studying. -/
def carolUser : Session :=
  { id := "doc-c3", name := "Carol", status := Status.idle,
    sessionStartTime := none, lastSeen := 4000 }

/-- Tab state owning `bobUser` with a session running. -/
def activeState : LocalState :=
  { initialState with currentUser := some bobUser,
                      storage := some bobUser.id, isLoading := false }

/-- Tab state owning `carolUser`, idle. -/
def idleState : LocalState :=
  { initialState with currentUser := some carolUser,
                      storage := some carolUser.id, isLoading := false }

/-- Tab state with a join in flight. -/
def joiningState : LocalState :=
  { initialState with isJoining := true, currentUser := some carolUser,
                      storage := some carolUser.id }

/-- The record-shape invariant checked on every remote write that sets the
`status` / `sessionStartTime` pair: `status == 'active'` iff the start time is
non-null.  Writes that do not touch the pair satisfy it trivially. -/
def writeInvariant : Effect → Prop
  | Effect.addSession _ st sst => st = Status.active ↔ sst ≠ none
  | Effect.updateSession _ st sst => st = Status.active ↔ sst ≠ none
  | _ => True

/-- C1: every record state the lifecycle controller writes satisfies
`status == 'active' ⟺ sessionStartTime != null` — `joinRoom` creates
`{idle, null}`, `startSession` writes `{'active', serverTimestamp}` in one
write, and `endSession` writes `{'idle', null}` in one write, over all states
and outcomes. -/
theorem lifecycle_write_invariant (s : LocalState) (name userId : String)
    (outcome : Option String) (now serverNow : Millis) (ok : Bool) :
    (∀ e ∈ (joinRoom s name outcome now).2, writeInvariant e) ∧
    (∀ e ∈ (startSession s serverNow ok).2, writeInvariant e) ∧
    (∀ e ∈ (endSession s userId now ok).2, writeInvariant e) := by
  refine ⟨?_, ?_, ?_⟩
  · intro e he
    cases outcome with
    | some docId =>
        simp only [joinRoom, List.mem_cons, List.mem_singleton] at he
        rcases he with h | h | h
        · subst h; simp [writeInvariant]
        · subst h; simp [writeInvariant]
        · exact absurd h (by simp)
    | none => simp [joinRoom] at he
  · intro e he
    cases hc : s.currentUser with
    | none => simp [startSession, hc] at he
    | some u =>
        cases ok with
        | true =>
            simp only [startSession, hc, List.mem_singleton, if_true] at he
            subst he; simp [writeInvariant]
        | false => simp [startSession, hc] at he
  · intro e he
    cases hc : s.currentUser with
    | none => simp [endSession, hc] at he
    | some u =>
        cases hst : u.sessionStartTime with
        | none => simp [endSession, hc, hst] at he
        | some startT =>
            cases hsave : saveCompletedSession userId u startT now with
            | none =>
                cases ok with
                | true =>
                    simp only [endSession, hc, hst, hsave, if_true,
                      List.nil_append, List.mem_singleton] at he
                    subst he; simp [writeInvariant]
                | false => simp [endSession, hc, hst, hsave] at he
            | some rec =>
                cases ok with
                | true =>
                    simp only [endSession, hc, hst, hsave, if_true,
                      List.cons_append, List.nil_append, List.mem_cons,
                      List.mem_singleton] at he
                    rcases he with h | h | h
                    · subst h; simp [writeInvariant]
                    · subst h; simp [writeInvariant]
                    · exact absurd h (by simp)
                | false =>
                    simp only [endSession, hc, hst, hsave, if_false,
                      Bool.false_eq_true, List.mem_singleton] at he
                    subst he; simp [writeInvariant]

/-- Witness for C1: the record `joinRoom` creates on a fresh tab satisfies
the invariant. -/
theorem lifecycle_write_invariant_instance :
    writeInvariant (Effect.addSession aliceName Status.idle none) :=
  (lifecycle_write_invariant initialState aliceName uuidA (some idA) 1000
      2000 true).1
    (Effect.addSession aliceName Status.idle none) (by decide)

/-- C2: a session started at `T0` and ended at `T0 + 125s` yields a
completed-session write whose `sessionDuration` is 125 (the floor of the
difference in seconds); a session ended at `T0 + 3s` yields no
completed-session write at all — the 3-second duration is below the 5-second
threshold and is silently discarded. -/
theorem endSession_duration_threshold (T0 : Millis) (s : LocalState)
    (u : Session) (userId : String)
    (hu : s.currentUser = some u) (hst : u.sessionStartTime = some T0) :
    (endSession s userId (T0 + 125000) true).2 =
      [Effect.addCompleted
        { userId := userId, userName := u.name, sessionDuration := 125,
          startTime := T0, endTime := T0 + 125000 },
       Effect.updateSession u.id Status.idle none] ∧
    (endSession s userId (T0 + 3000) true).2 =
      [Effect.updateSession u.id Status.idle none] := by
  have h125 : durationSeconds T0 (T0 + 125000) = 125 := by
    unfold durationSeconds
    have hd : ((T0 + 125000 : Nat) : Int) - (T0 : Int) = 125000 := by
      push_cast; ring
    rw [hd]; decide
  have h3 : durationSeconds T0 (T0 + 3000) = 3 := by
    unfold durationSeconds
    have hd : ((T0 + 3000 : Nat) : Int) - (T0 : Int) = 3000 := by
      push_cast; ring
    rw [hd]; decide
  constructor
  · simp [endSession, hu, hst, saveCompletedSession, h125]
  · simp [endSession, hu, hst, saveCompletedSession, h3]

/-- Witness for C2 at `T0 = 5000` on the concrete active state. -/
theorem endSession_duration_threshold_witness :
    (endSession activeState uuidA (5000 + 125000) true).2 =
      [Effect.addCompleted
        { userId := uuidA, userName := bobUser.name, sessionDuration := 125,
          startTime := 5000, endTime := 5000 + 125000 },
       Effect.updateSession bobUser.id Status.idle none] ∧
    (endSession activeState uuidA (5000 + 3000) true).2 =
      [Effect.updateSession bobUser.id Status.idle none] :=
  endSession_duration_threshold 5000 activeState bobUser uuidA rfl rfl

/-- C3: when no session is active — `currentUser` null, or its
`sessionStartTime` null — `endSession` returns before doing anything: the
local state is unchanged (no error, no feedback modal, no duration update)
and no remote write of any kind is issued. -/
theorem endSession_inactive_noop (s : LocalState) (userId : String)
    (now : Millis) (ok : Bool)
    (h : ∀ u, s.currentUser = some u → u.sessionStartTime = none) :
    endSession s userId now ok = (s, []) := by
  cases hc : s.currentUser with
  | none => simp [endSession, hc]
  | some u => simp [endSession, hc, h u hc]

/-- Witness for C3 on the concrete idle state (joined, not studying). -/
theorem endSession_inactive_noop_witness :
    endSession idleState uuidA 9000 true = (idleState, []) :=
  endSession_inactive_noop idleState uuidA 9000 true (fun u hu => by
    have hc : idleState.currentUser = some carolUser := rfl
    rw [hc] at hu
    cases hu
    rfl)

/-- C4: a snapshot processed while a join (or a leave) is in flight leaves
`currentUser` and the durable stored identity untouched — only `allUsers`,
`isLoading` and `error` change (and the remaining cells keep their values
too). -/
theorem snapshot_suppression_frame (s : LocalState) (sessions : List Session)
    (h : s.isJoining = true ∨ s.isLeaving = true) :
    (handleSnapshot s sessions).currentUser = s.currentUser ∧
    (handleSnapshot s sessions).storage = s.storage ∧
    (handleSnapshot s sessions).isJoining = s.isJoining ∧
    (handleSnapshot s sessions).isLeaving = s.isLeaving ∧
    (handleSnapshot s sessions).showFeedbackModal = s.showFeedbackModal ∧
    (handleSnapshot s sessions).sessionDuration = s.sessionDuration ∧
    (handleSnapshot s sessions).allUsers = sessions ∧
    (handleSnapshot s sessions).isLoading = false ∧
    (handleSnapshot s sessions).error = none := by
  have hb : (s.isJoining || s.isLeaving) = true := by
    rcases h with h | h <;> simp [h]
  simp [handleSnapshot, hb]

/-- Witness for C4: a snapshot that no longer carries the joining tab's
record still leaves its optimistic `currentUser` and stored id in place. -/
theorem snapshot_suppression_frame_witness :
    (handleSnapshot joiningState [bobUser]).currentUser =
      joiningState.currentUser ∧
    (handleSnapshot joiningState [bobUser]).storage = joiningState.storage :=
  ⟨(snapshot_suppression_frame joiningState [bobUser] (Or.inl rfl)).1,
   (snapshot_suppression_frame joiningState [bobUser] (Or.inl rfl)).2.1⟩

/-- Counterexample to C5 as stated: when `archiveSession` fails (the history
append throws), `leaveRoom` performs no remote write at all — the presence
record survives — yet the optimistic local clearing is NOT rolled back:
`currentUser` stays `null` (it was `some bobUser` before) and the durable
identity stays cleared, so the in-flight local changes of a failed leave are
left in place rather than rolled back. -/
theorem leaveRoom_no_rollback_cex :
    (leaveRoom activeState 9000 false false).2 = [] ∧
    activeState.currentUser = some bobUser ∧
    (leaveRoom activeState 9000 false false).1.currentUser ≠
      activeState.currentUser ∧
    (leaveRoom activeState 9000 false false).1.storage ≠ activeState.storage ∧
    (leaveRoom activeState 9000 false false).1.error = some leaveErrMsg := by
  decide

/-- C5 as amended: a failed `joinRoom` does roll back fully — `currentUser`
stays `null`, no durable identity is stored, the joining flag is cleared, an
error is surfaced and no remote record was created; a failed `leaveRoom`
instead keeps the optimistic clearing (`currentUser` null, durable identity
cleared) rather than rolling it back, clearing the leaving flag and surfacing
an error, and when the history append failed no remote write happened at
all. -/
theorem lifecycle_failure_semantics (s t : LocalState) (name : String)
    (now : Millis) (u : Session) (historyOk deleteOk : Bool) :
    (s.currentUser = none → s.storage = none →
      (joinRoom s name none now).1.currentUser = none ∧
      (joinRoom s name none now).1.storage = none ∧
      (joinRoom s name none now).1.isJoining = false ∧
      (joinRoom s name none now).1.error = some joinErrMsg ∧
      (joinRoom s name none now).2 = []) ∧
    (t.currentUser = some u → historyOk = false ∨ deleteOk = false →
      (leaveRoom t now historyOk deleteOk).1.currentUser = none ∧
      (leaveRoom t now historyOk deleteOk).1.storage = none ∧
      (leaveRoom t now historyOk deleteOk).1.isLeaving = false ∧
      (leaveRoom t now historyOk deleteOk).1.error = some leaveErrMsg ∧
      (historyOk = false → (leaveRoom t now historyOk deleteOk).2 = [])) := by
  constructor
  · intro hc hs
    simp [joinRoom, hc, hs]
  · intro ht hfail
    have hres : (archiveSession u now historyOk deleteOk).1 = false := by
      cases historyOk with
      | false => simp [archiveSession]
      | true =>
          cases deleteOk with
          | false => simp [archiveSession]
          | true => rcases hfail with h | h <;> exact absurd h (by simp)
    refine ⟨?_, ?_, ?_, ?_, ?_⟩
    · simp [leaveRoom, ht, hres]
    · simp [leaveRoom, ht, hres]
    · simp [leaveRoom, ht, hres]
    · simp [leaveRoom, ht, hres]
    · intro hh
      subst hh
      simp [leaveRoom, ht, archiveSession]

/-- Witness for the amended C5: a failed join on a fresh tab and a failed
leave from the concrete active state. -/
theorem lifecycle_failure_semantics_witness :
    ((joinRoom initialState aliceName none 1000).1.currentUser = none ∧
      (joinRoom initialState aliceName none 1000).1.storage = none ∧
      (joinRoom initialState aliceName none 1000).1.isJoining = false ∧
      (joinRoom initialState aliceName none 1000).1.error = some joinErrMsg ∧
      (joinRoom initialState aliceName none 1000).2 = []) ∧
    ((leaveRoom activeState 9000 false false).1.currentUser = none ∧
      (leaveRoom activeState 9000 false false).1.storage = none ∧
      (leaveRoom activeState 9000 false false).1.isLeaving = false ∧
      (leaveRoom activeState 9000 false false).1.error = some leaveErrMsg ∧
      (false = false → (leaveRoom activeState 9000 false false).2 = [])) :=
  ⟨(lifecycle_failure_semantics initialState activeState aliceName 1000
      bobUser false false).1 rfl rfl,
   (lifecycle_failure_semantics initialState activeState aliceName 9000
      bobUser false false).2 rfl (Or.inl rfl)⟩

/-- C6: a join attempt through the lobby form with an empty or
whitespace-only name is rejected by the `if (!name.trim()) return` guard
before `onJoin` ever runs — the state is unchanged and no remote write of any
kind is issued. -/
theorem join_empty_name_rejected (s : LocalState) (name : String)
    (outcome : Option String) (now : Millis) (h : jsTrim name = "") :
    handleSubmit s name outcome now = (s, []) := by
  simp [handleSubmit, h]

/-- Witness for C6 on a whitespace-only name (even with a store that would
accept the write). -/
theorem join_empty_name_rejected_witness :
    handleSubmit initialState wsName (some idA) 1000 = (initialState, []) :=
  join_empty_name_rejected initialState wsName (some idA) 1000 (by decide)

/-- C7: a snapshot (outside any suppression window) that no longer contains
the durably stored identity is treated as an implicit leave: `currentUser`
becomes `null` and the durable identity is cleared, while `allUsers` adopts
the delivered list. -/
theorem snapshot_eviction_implicit_leave (s : LocalState)
    (sessions : List Session) (uid : String)
    (hj : s.isJoining = false) (hl : s.isLeaving = false)
    (hs : s.storage = some uid)
    (habs : ∀ u ∈ sessions, u.id ≠ uid) :
    (handleSnapshot s sessions).currentUser = none ∧
    (handleSnapshot s sessions).storage = none ∧
    (handleSnapshot s sessions).allUsers = sessions := by
  have hfind : sessions.find? (fun u => u.id == uid) = none := by
    rw [List.find?_eq_none]
    intro u hu
    simpa using habs u hu
  simp [handleSnapshot, hj, hl, hs, hfind]

/-- Witness for C7: Bob's record was evicted; his tab sees a snapshot holding
only Carol and implicitly leaves. -/
theorem snapshot_eviction_implicit_leave_witness :
    (handleSnapshot activeState [carolUser]).currentUser = none ∧
    (handleSnapshot activeState [carolUser]).storage = none ∧
    (handleSnapshot activeState [carolUser]).allUsers = [carolUser] :=
  snapshot_eviction_implicit_leave activeState [carolUser] bobUser.id
    rfl rfl rfl (by decide)

/-- C8: once the tab goes hidden, any number of elapsed interval periods
(e.g. five 2-minute periods over a 10-minute window) produce zero heartbeat
writes; when visibility is restored, exactly one heartbeat fires immediately
and the periodic interval is active again, so a subsequent interval tick
writes once more. -/
theorem heartbeat_hidden_suppressed (s : HBState) (n : Nat) :
    (hbRun (hbStep s HBEvent.hide).1 (List.replicate n HBEvent.tick)).2 = 0 ∧
    hbStep (hbRun (hbStep s HBEvent.hide).1
        (List.replicate n HBEvent.tick)).1 HBEvent.show =
      ({ hidden := false, intervalActive := true }, 1) ∧
    hbStep { hidden := false, intervalActive := true } HBEvent.tick =
      ({ hidden := false, intervalActive := true }, 1) := by
  have key : ∀ m : Nat,
      hbRun { hidden := true, intervalActive := false }
        (List.replicate m HBEvent.tick) =
      ({ hidden := true, intervalActive := false }, 0) := by
    intro m
    induction m with
    | zero => rfl
    | succ k ih => simp [List.replicate_succ, hbRun, hbStep, ih]
  refine ⟨?_, ?_, rfl⟩
  · show (hbRun { hidden := true, intervalActive := false }
      (List.replicate n HBEvent.tick)).2 = 0
    rw [key n]
  · show hbStep (hbRun { hidden := true, intervalActive := false }
      (List.replicate n HBEvent.tick)).1 HBEvent.show = _
    rw [key n]
    rfl

/-- C9: `startSession` checks only `currentUser != null`.  With a session
already active (start time `t0`), the call still issues the combined update,
overwriting `sessionStartTime` with the fresh server timestamp; with no
`currentUser` it does nothing. -/
theorem startSession_unguarded_restart (s : LocalState) (u : Session)
    (serverNow t0 : Millis) (ok : Bool)
    (hu : s.currentUser = some u) (hact : u.status = Status.active)
    (hst : u.sessionStartTime = some t0) :
    startSession s serverNow true =
      (s, [Effect.updateSession u.id Status.active (some serverNow)]) ∧
    (∀ t : LocalState, t.currentUser = none →
      startSession t serverNow ok = (t, [])) := by
  constructor
  · simp [startSession, hu]
  · intro t ht
    simp [startSession, ht]

/-- Witness for C9: restarting Bob's already-active session (started at
5000 ms) re-issues the write with the fresh timestamp 777000 ms. -/
theorem startSession_unguarded_restart_witness :
    startSession activeState 777000 true =
      (activeState,
       [Effect.updateSession bobUser.id Status.active (some 777000)]) ∧
    (∀ t : LocalState, t.currentUser = none →
      startSession t 777000 true = (t, [])) :=
  startSession_unguarded_restart activeState bobUser 777000 5000 true
    rfl rfl rfl

/-- C10: `archiveSession` appends the `session_history` record (with
`originalSessionId`, the duration/`completedSession` pair derived from
`sessionStartTime`) and only then deletes the presence record; when the
append fails it throws and nothing is deleted; whenever the delete effect
occurs at all, the history write precedes it; and `leaveRoom` emits exactly
`archiveSession`'s writes. -/
theorem archiveSession_history_before_delete (u : Session) (now : Millis) :
    (archiveSession u now true true).2 =
      [Effect.addHistory (historyRecord u now), Effect.deleteSession u.id] ∧
    (archiveSession u now true true).1 = true ∧
    (∀ d : Bool, (archiveSession u now false d).1 = false ∧
      (archiveSession u now false d).2 = []) ∧
    (historyRecord u now).originalSessionId = u.id ∧
    (historyRecord u now).completedSession = u.sessionStartTime.isSome ∧
    (u.sessionStartTime = none → (historyRecord u now).sessionDuration = 0) ∧
    (∀ t0, u.sessionStartTime = some t0 →
      (historyRecord u now).sessionDuration = durationSeconds t0 now) ∧
    (∀ historyOk deleteOk : Bool,
      Effect.deleteSession u.id ∈ (archiveSession u now historyOk deleteOk).2 →
      (archiveSession u now historyOk deleteOk).2 =
        [Effect.addHistory (historyRecord u now), Effect.deleteSession u.id]) ∧
    (∀ t : LocalState, ∀ historyOk deleteOk : Bool, t.currentUser = some u →
      (leaveRoom t now historyOk deleteOk).2 =
        (archiveSession u now historyOk deleteOk).2) := by
  refine ⟨by simp [archiveSession], by simp [archiveSession],
          fun d => ⟨by simp [archiveSession], by simp [archiveSession]⟩,
          rfl, rfl, ?_, ?_, ?_, ?_⟩
  · intro h
    simp [historyRecord, h]
  · intro t0 h
    simp [historyRecord, h]
  · intro historyOk deleteOk hmem
    cases historyOk with
    | false => simp [archiveSession] at hmem
    | true =>
        cases deleteOk with
        | false => simp [archiveSession] at hmem
        | true => simp [archiveSession]
  · intro t historyOk deleteOk ht
    cases hr : (archiveSession u now historyOk deleteOk).1 <;>
      simp [leaveRoom, ht, hr]

/-- Witness for C10: archiving Bob (active since 5000 ms, leaving at
9000 ms) writes history then delete; with a failing append nothing is
deleted; Carol's idle record archives with duration 0; and `leaveRoom` from
the active state emits the same writes. -/
theorem archiveSession_history_before_delete_witness :
    (archiveSession bobUser 9000 true true).2 =
      [Effect.addHistory (historyRecord bobUser 9000),
       Effect.deleteSession bobUser.id] ∧
    (archiveSession bobUser 9000 false true).2 = [] ∧
    (historyRecord bobUser 9000).sessionDuration = durationSeconds 5000 9000 ∧
    (historyRecord carolUser 9000).sessionDuration = 0 ∧
    (leaveRoom activeState 9000 true true).2 =
      (archiveSession bobUser 9000 true true).2 :=
  ⟨(archiveSession_history_before_delete bobUser 9000).1,
   ((archiveSession_history_before_delete bobUser 9000).2.2.1 true).2,
   (archiveSession_history_before_delete bobUser 9000).2.2.2.2.2.2.1 5000 rfl,
   (archiveSession_history_before_delete carolUser 9000).2.2.2.2.2.1 rfl,
   (archiveSession_history_before_delete bobUser 9000).2.2.2.2.2.2.2.2
     activeState true true rfl⟩

end StudyTogether
